import Mathlib

/-!
Verification development for the app-revenue MCP server.

The verified core consists of the in-memory TTL cache around the Sensor
Tower API (`callSensorTowerAPI`), the essential-data extractor
(`extractEssentialRevenueData` with its helpers `formatRevenue`,
`extractCategoryRankings`, `extractTopIAPPrices`), and the two batch
revenue tool handlers.

Modelling conventions:
* JavaScript/JSON runtime values are the inductive `JsVal`.  Payload objects
  come from `JSON.parse`, so object keys are unique and distinct subobjects
  are distinct references.
* Numbers are exact rationals.  Every numeric operation performed by the
  verified code (division by 100, 1000, 1000000, comparisons, rounding to
  one decimal) is exact decimal arithmetic, so `ℚ` is a faithful model of
  the IEEE doubles actually flowing through these operations at the values
  the claims quantify over.
* Exceptions are `Except String`; the string is the `error.message` a
  JavaScript `Error` object would carry.
* The upstream `fetch` plus `response.json()` pair is an oracle function
  `String → FetchOutcome` from the final endpoint to an outcome.
-/

namespace AppRevenue

/-- Model of a JavaScript runtime value as produced by `JSON.parse` (plus
`undefined` for absent properties and `bool` for flag fields). -/
inductive JsVal where
  | undef
  | null
  | bool (b : Bool)
  | num (q : ℚ)
  | str (s : String)
  | arr (elems : List JsVal)
  | obj (fields : List (String × JsVal))

/-- JavaScript truthiness: `undefined`, `null`, `false`, `0` and the empty
string are falsy; every array and object is truthy. -/
def truthy : JsVal → Bool
  | .undef => false
  | .null => false
  | .bool b => b
  | .num q => q != 0
  | .str s => s != ""
  | .arr _ => true
  | .obj _ => true

/-- Key lookup in an object literal.  `JSON.parse` output has unique keys,
so first-match lookup is the JS property lookup. -/
def lookupField : List (String × JsVal) → String → JsVal
  | [], _ => .undef
  | (k, v) :: rest, key => if k == key then v else lookupField rest key

/-- Plain property access `v.k`: throws a TypeError on a nullish receiver,
yields `undefined` for a missing key or a primitive receiver. -/
def jget (v : JsVal) (k : String) : Except String JsVal :=
  match v with
  | .undef => .error ("TypeError: Cannot read properties of undefined (reading " ++ k ++ ")")
  | .null => .error ("TypeError: Cannot read properties of null (reading " ++ k ++ ")")
  | .obj fs => .ok (lookupField fs k)
  | _ => .ok (.undef)

/-- Optional-chained property access `v?.k`: `undefined` on a nullish
receiver, otherwise as `jget` (which cannot throw on a non-nullish one). -/
def jgetOpt (v : JsVal) (k : String) : JsVal :=
  match v with
  | .undef => .undef
  | .null => .undef
  | .obj fs => lookupField fs k
  | _ => (.undef)

/-- Optional-chained index access `v?.[i]`. -/
def jidxOpt (v : JsVal) (i : Nat) : JsVal :=
  match v with
  | .arr xs => xs.getD i .undef
  | .str s =>
    match s.data.drop i with
    | c :: _ => .str (String.mk [c])
    | [] => .undef
  | _ => (.undef)

/-- Value-returning JS disjunction `a || b`. -/
def jsOr (a b : JsVal) : JsVal := if truthy a then a else b

/-- Method call `v.slice(a, b)` for the array receivers this code expects.
A nullish receiver throws the usual TypeError.  A string receiver would
JS-slice to a string and make the surrounding expression throw one step
later (strings have no `.map`, and spreading a sliced string into
`prices.push` still yields no `.price` objects); it is modelled as an
immediate TypeError, which lands in the same enclosing catch. -/
def jsSlice (v : JsVal) (a b : Nat) : Except String (List JsVal) :=
  match v with
  | .undef => .error "TypeError: Cannot read properties of undefined (reading slice)"
  | .null => .error "TypeError: Cannot read properties of null (reading slice)"
  | .arr xs => .ok ((xs.drop a).take (b - a))
  | _ => .error "TypeError: slice is not a function"

/-- Optional-chained `v?.length`. -/
def jsLengthOpt (v : JsVal) : JsVal :=
  match v with
  | .undef => .undef
  | .null => .undef
  | .arr xs => .num xs.length
  | .str s => .num s.length
  | .obj fs => lookupField fs "length"
  | _ => (.undef)

/-- The `delete v.k` statement on an object receiver. -/
def jdelete (v : JsVal) (k : String) : JsVal :=
  match v with
  | .obj fs => .obj (fs.filter (fun kv => kv.1 != k))
  | _ => v

/-- `Array.prototype.map` with a fallible body: elements are visited left to
right and a thrown error aborts the traversal, as in JS. -/
def jsMapM (f : JsVal → Except String JsVal) : List JsVal → Except String (List JsVal)
  | [] => .ok []
  | a :: t => do
    let b ← f a
    let rest ← jsMapM f t
    pure (b :: rest)

/-- The SameValueZero comparison used by `Set`.  Primitives compare by
value; two (sub)objects or arrays of a `JSON.parse` result are always
distinct references, so they never compare equal. -/
def jsSameValueZero : JsVal → JsVal → Bool
  | .undef, .undef => true
  | .null, .null => true
  | .bool a, .bool b => a == b
  | .num a, .num b => a == b
  | .str a, .str b => a == b
  | _, _ => false

/-- `[...new Set(l)]`: keep the first occurrence of every value, in
encounter order. -/
def dedupFirst : List JsVal → List JsVal
  | [] => []
  | a :: l => a :: dedupFirst (l.filter (fun x => !jsSameValueZero x a))
termination_by l => l.length
decreasing_by
  simp only [List.length_cons]
  exact Nat.lt_succ_of_le (List.length_filter_le _ _)

/-- Scan for `pat` as a prefix of some suffix of the character list. -/
def strContainsAux (pat : List Char) : List Char → Bool
  | [] => pat.isEmpty
  | c :: rest => pat.isPrefixOf (c :: rest) || strContainsAux pat rest

/-- Models `String.prototype.includes(pat)`. -/
def strContains (s pat : String) : Bool :=
  strContainsAux pat.data s.data

/-- Exact division `q / m` of a JS number by a positive integer constant,
implemented on the numerator/denominator representation so that concrete
evaluations reduce.  `divQ_eq` identifies it with rational division. -/
def divQ (q : ℚ) (m : Nat) : ℚ := Rat.divInt q.num (q.den * m)

theorem divQ_eq (q : ℚ) (m : Nat) : divQ q m = q / m := by
  unfold divQ
  rw [Rat.divInt_eq_div]
  conv_rhs => rw [← Rat.num_div_den q, div_div]
  push_cast
  ring

/-- Models `Number.prototype.toFixed(1)` for the nonnegative arguments this
code produces (the dollars value is at least 1000 in both call sites):
round `10 * q` to the nearest integer, ties upward, and print one decimal
digit. -/
def toFixed1 (q : ℚ) : String :=
  let n : Nat := (Int.fdiv (q.num * 20 + q.den) ((q.den : Int) * 2)).toNat
  toString (n / 10) ++ "." ++ toString (n % 10)

/-- Insert an en-US thousands separator every three digits; the input is the
reversed digit list. -/
def groupDigitsRev : List Char → List Char
  | c1 :: c2 :: c3 :: c4 :: rest => c1 :: c2 :: c3 :: ',' :: groupDigitsRev (c4 :: rest)
  | l => l

/-- Group an unsigned decimal digit string with commas, en-US style. -/
def groupDigits (s : String) : String :=
  String.mk (groupDigitsRev s.data.reverse).reverse

/-- Up-to-three fraction digits of `n % 1000`, zero-padded on the left and
with trailing zeros trimmed, as the default locale renders them. -/
def fracDigits (fp : Nat) : String :=
  let s := toString fp
  let padded := List.replicate (3 - s.length) '0' ++ s.data
  String.mk (padded.reverse.dropWhile (fun c => c == '0')).reverse

/-- Models `Number.prototype.toLocaleString()` under the en-US default
locale for the nonnegative arguments this code produces (the dollars value
is below 1000 and nonzero at its only call site; negative revenue does not
occur upstream): comma-grouped integer part, at most three fraction digits,
trailing fraction zeros trimmed. -/
def numToLocale (q : ℚ) : String :=
  let n : Nat := (Int.fdiv (q.num * 2000 + q.den) ((q.den : Int) * 2)).toNat
  let ip := n / 1000
  let fp := n % 1000
  if fp = 0 then groupDigits (toString ip)
  else groupDigits (toString ip) ++ "." ++ fracDigits fp

/-- `function formatRevenue(cents)` — source lines 136 to 145.  The argument
is whatever JS value `worldwide_last_month_revenue?.value || 0` produced;
`!cents || cents === 0` is exactly falsiness there.  A non-numeric truthy
argument would go through ToNumber coercion in `cents / 100`; the upstream
revenue field is numeric when present, and the model renders that dead
corner via the NaN path. -/
def formatRevenue (cents : JsVal) : String :=
  if ¬ truthy cents then "$0"
  else match cents with
  | .num q =>
    let dollars := divQ q 100
    if 1000000 ≤ dollars then "$" ++ toFixed1 (divQ dollars 1000000) ++ "M"
    else if 1000 ≤ dollars then "$" ++ toFixed1 (divQ dollars 1000) ++ "K"
    else "$" ++ numToLocale dollars
  | _ => "$NaN"

/-- The try body of `extractTopIAPPrices`: `iapData` is truthy when it runs,
so `iapData.US` is a safe access; the fallible steps are `.slice` on a
truthy non-array and `.price` on nullish elements. -/
def extractTopIAPPricesTry (iapData : JsVal) : Except String (List JsVal) := do
  let us := jgetOpt iapData "US"
  if truthy us then
    let sliced ← jsSlice us 0 3
    let prices ← jsMapM (fun iap => jget iap "price") sliced
    pure (dedupFirst prices)
  else
    pure []

/-- `function extractTopIAPPrices(iapData)` — source lines 166 to 178. -/
def extractTopIAPPrices (iapData : JsVal) : JsVal :=
  if ¬ truthy iapData then .arr []
  else
    match extractTopIAPPricesTry iapData with
    | .ok prices => .arr prices
    | .error _ => .arr []

/-- The object literal returned by `extractCategoryRankings` once the
device bucket has been selected:
`deviceRankings?.top_X?.primary_categories?.[0] || null` for each list. -/
def rankingTriple (deviceRankings : JsVal) : JsVal :=
  .obj [
    ("top_free",
      jsOr (jidxOpt (jgetOpt (jgetOpt deviceRankings "top_free") "primary_categories") 0) .null),
    ("top_grossing",
      jsOr (jidxOpt (jgetOpt (jgetOpt deviceRankings "top_grossing") "primary_categories") 0) .null),
    ("top_paid",
      jsOr (jidxOpt (jgetOpt (jgetOpt deviceRankings "top_paid") "primary_categories") 0) .null)]

/-- `function extractCategoryRankings(rankings, platform)` — source lines
148 to 163.  Every access in the try body is optional-chained or on the
truthy `rankings`, so the body cannot throw and the catch branch is dead;
the transliteration is therefore pure. -/
def extractCategoryRankings (rankings : JsVal) (platform : String) : JsVal :=
  if ¬ truthy rankings then .obj []
  else
    let deviceType := if platform == "ios" then "iphone" else "phone"
    rankingTriple (jsOr (jgetOpt rankings deviceType) rankings)

/-- The map body of the competitor extraction: reduce one related app to
name, rating and price.  The first property access throws on a nullish
element, as in the source. -/
def competitorOf (app : JsVal) : Except String JsVal := do
  let n ← jget app "name"
  let t ← jget app "title"
  let r ← jget app "rating"
  let sc ← jget app "score"
  let pr ← jget app "price"
  let pt ← jget app "priceText"
  pure (JsVal.obj [
    ("name", jsOr n t),
    ("rating", jsOr r sc),
    ("price", jsOr (jgetOpt pr "string_value") (jsOr pt (.str "Free")))])

/-- The subexpression `rawData.top_countries?.slice(0, 3)` — the first
fallible step, in source evaluation order, of the record assembly. -/
def tcStep (rawData : JsVal) : Except String JsVal :=
  match jgetOpt rawData "top_countries" with
  | .undef => pure JsVal.undef
  | .null => pure JsVal.undef
  | v => JsVal.arr <$> jsSlice v 0 3

/-- The subexpression `rawData.related_apps?.slice(0, 3)?.map(app => ...)` —
the second fallible step of the record assembly. -/
def competitorsStep (rawData : JsVal) : Except String JsVal :=
  match jgetOpt rawData "related_apps" with
  | .undef => pure JsVal.undef
  | .null => pure JsVal.undef
  | v => do
    let sliced ← jsSlice v 0 3
    let mapped ← jsMapM competitorOf sliced
    pure (JsVal.arr mapped)

/-- The object literal built by the try body of
`extractEssentialRevenueData`, given the values of the two fallible
subexpressions (`|| []` turns their nullish results into empty lists). -/
def essentialAssemble (rawData : JsVal) (platform : String)
    (identifier tcVal competitors : JsVal) : JsVal :=
  let rev := jgetOpt rawData "worldwide_last_month_revenue"
  JsVal.obj [
    ("app_info", .obj [
      ("id", if platform == "ios" then jgetOpt rawData "app_id"
             else jsOr (jgetOpt rawData "package_name") identifier),
      ("name", jsOr (jgetOpt rawData "name") (jgetOpt rawData "title")),
      ("publisher", jsOr (jgetOpt rawData "publisher_name") (jgetOpt rawData "developer")),
      ("platform", .str platform),
      ("category", jsOr (jgetOpt (jidxOpt (jgetOpt rawData "categories") 0) "name") (.str "Unknown")),
      ("content_rating", jgetOpt rawData "content_rating"),
      ("current_version", jgetOpt rawData "current_version")]),
    ("revenue_metrics", .obj [
      ("last_month_revenue", jsOr (jgetOpt rev "value") (.num 0)),
      ("last_month_downloads",
        jsOr (jgetOpt (jgetOpt rawData "worldwide_last_month_downloads") "value") (.num 0)),
      ("revenue_currency", jsOr (jgetOpt rev "currency") (.str "USD")),
      ("revenue_formatted", .str (formatRevenue (jsOr (jgetOpt rev "value") (.num 0))))]),
    ("market_position", .obj [
      ("overall_rating", jsOr (jgetOpt rawData "rating") (jgetOpt rawData "score")),
      ("rating_count", jsOr (jgetOpt rawData "rating_count") (jgetOpt rawData "reviews")),
      ("top_countries", jsOr tcVal (.arr [])),
      ("category_rankings", extractCategoryRankings (jgetOpt rawData "category_rankings") platform)]),
    ("monetization", .obj [
      ("price", jsOr (jgetOpt (jgetOpt rawData "price") "string_value")
                     (jsOr (jgetOpt rawData "priceText") (.str "Free"))),
      ("has_in_app_purchases", jsOr (jgetOpt rawData "has_in_app_purchases")
                     (jsOr (jgetOpt rawData "offersIAP") (.bool false))),
      ("top_iap_prices", extractTopIAPPrices (jgetOpt rawData "top_in_app_purchases"))]),
    ("competitive_analysis", .obj [
      ("related_apps_count", jsOr (jsLengthOpt (jgetOpt rawData "related_apps")) (.num 0)),
      ("top_competitors", jsOr competitors (.arr []))])]

/-- The try body of `extractEssentialRevenueData` — source lines 88 to 126.
`rawData` is truthy when it runs, so its plain `rawData.x` accesses cannot
throw and are modelled by `jgetOpt`.  In source evaluation order, the two
fallible subexpressions are the `.slice` on `top_countries` and the
`.slice`/`.map` on `related_apps`. -/
def extractEssentialTry (rawData : JsVal) (platform : String) (identifier : JsVal) :
    Except String JsVal := do
  let tcVal ← tcStep rawData
  let competitors ← competitorsStep rawData
  pure (essentialAssemble rawData platform identifier tcVal competitors)

/-- `function extractEssentialRevenueData(rawData, platform, identifier)` —
source lines 85 to 133.  Returns `null` on a falsy payload; otherwise the
record, degraded to an error descriptor if the try body threw
(`raw_data_available` is `!!rawData`, necessarily true here). -/
def extractEssentialRevenueData (rawData : JsVal) (platform : String) (identifier : JsVal) :
    JsVal :=
  if ¬ truthy rawData then .null
  else
    match extractEssentialTry rawData platform identifier with
    | .ok essential => essential
    | .error msg => .obj [
        ("error", .str ("Failed to extract data: " ++ msg)),
        ("raw_data_available", .bool (truthy rawData))]

/-! ### Constructor-level reduction lemmas for the JS primitives -/

@[simp] theorem truthy_undef : truthy .undef = false := rfl

@[simp] theorem truthy_null : truthy .null = false := rfl

@[simp] theorem truthy_bool (b : Bool) : truthy (.bool b) = b := rfl

@[simp] theorem truthy_num (q : ℚ) : truthy (.num q) = (q != 0) := rfl

@[simp] theorem truthy_str (s : String) : truthy (.str s) = (s != "") := rfl

@[simp] theorem truthy_arr (xs : List JsVal) : truthy (.arr xs) = true := rfl

@[simp] theorem truthy_obj (fs : List (String × JsVal)) : truthy (.obj fs) = true := rfl

@[simp] theorem lookupField_nil (k : String) : lookupField [] k = .undef := rfl

@[simp] theorem lookupField_cons (k0 : String) (v : JsVal) (rest : List (String × JsVal))
    (k : String) :
    lookupField ((k0, v) :: rest) k = if k0 == k then v else lookupField rest k := rfl

@[simp] theorem jgetOpt_undef (k : String) : jgetOpt .undef k = .undef := rfl

@[simp] theorem jgetOpt_null (k : String) : jgetOpt .null k = .undef := rfl

@[simp] theorem jgetOpt_bool (b : Bool) (k : String) : jgetOpt (.bool b) k = .undef := rfl

@[simp] theorem jgetOpt_num (q : ℚ) (k : String) : jgetOpt (.num q) k = .undef := rfl

@[simp] theorem jgetOpt_str (s : String) (k : String) : jgetOpt (.str s) k = .undef := rfl

@[simp] theorem jgetOpt_arr (xs : List JsVal) (k : String) : jgetOpt (.arr xs) k = .undef := rfl

@[simp] theorem jgetOpt_obj (fs : List (String × JsVal)) (k : String) :
    jgetOpt (.obj fs) k = lookupField fs k := rfl

@[simp] theorem jget_undef (k : String) :
    jget .undef k =
      .error ("TypeError: Cannot read properties of undefined (reading " ++ k ++ ")") := rfl

@[simp] theorem jget_null (k : String) :
    jget .null k =
      .error ("TypeError: Cannot read properties of null (reading " ++ k ++ ")") := rfl

@[simp] theorem jget_bool (b : Bool) (k : String) : jget (.bool b) k = .ok .undef := rfl

@[simp] theorem jget_num (q : ℚ) (k : String) : jget (.num q) k = .ok .undef := rfl

@[simp] theorem jget_str (s : String) (k : String) : jget (.str s) k = .ok .undef := rfl

@[simp] theorem jget_arr (xs : List JsVal) (k : String) : jget (.arr xs) k = .ok .undef := rfl

@[simp] theorem jget_obj (fs : List (String × JsVal)) (k : String) :
    jget (.obj fs) k = .ok (lookupField fs k) := rfl

@[simp] theorem jidxOpt_undef (i : Nat) : jidxOpt .undef i = .undef := rfl

@[simp] theorem jidxOpt_null (i : Nat) : jidxOpt .null i = .undef := rfl

@[simp] theorem jidxOpt_arr (xs : List JsVal) (i : Nat) :
    jidxOpt (.arr xs) i = xs.getD i .undef := rfl

@[simp] theorem jsOr_eval (a b : JsVal) : jsOr a b = if truthy a then a else b := rfl

@[simp] theorem jsSlice_arr (xs : List JsVal) (a b : Nat) :
    jsSlice (.arr xs) a b = .ok ((xs.drop a).take (b - a)) := rfl

@[simp] theorem except_bind_ok {α β ε : Type} (a : α) (f : α → Except ε β) :
    (Except.ok a : Except ε α) >>= f = f a := rfl

@[simp] theorem except_bind_error {α β ε : Type} (e : ε) (f : α → Except ε β) :
    (Except.error e : Except ε α) >>= f = .error e := rfl

@[simp] theorem except_pure {α ε : Type} (a : α) :
    (pure a : Except ε α) = .ok a := rfl

@[simp] theorem except_map_ok {α β ε : Type} (g : α → β) (a : α) :
    (g <$> (Except.ok a : Except ε α)) = .ok (g a) := rfl

@[simp] theorem except_map_error {α β ε : Type} (g : α → β) (e : ε) :
    (g <$> (Except.error e : Except ε α)) = .error e := rfl

@[simp] theorem jsMapM_nil (f : JsVal → Except String JsVal) : jsMapM f [] = .ok [] := rfl

@[simp] theorem jsMapM_cons (f : JsVal → Except String JsVal) (a : JsVal) (t : List JsVal) :
    jsMapM f (a :: t) =
      f a >>= fun b => jsMapM f t >>= fun rest => pure (b :: rest) := rfl

/-- A stored cache entry `{ data, timestamp }`. -/
structure CacheEntry where
  data : JsVal
  timestamp : Int

/-- The `sensorTowerCache` map, as an association list in insertion order. -/
abbrev Cache := List (String × CacheEntry)

/-- `Map.prototype.get`. -/
def cacheGet : Cache → String → Option CacheEntry
  | [], _ => none
  | (k0, e0) :: rest, k => if k0 == k then some e0 else cacheGet rest k

/-- `Map.prototype.set`: replace the value under an existing key in place,
otherwise append. -/
def cacheSet : Cache → String → CacheEntry → Cache
  | [], k, e => [(k, e)]
  | (k0, e0) :: rest, k, e =>
    if k0 == k then (k, e) :: rest else (k0, e0) :: cacheSet rest k e

/-- `CACHE_DURATION = 30 * 24 * 60 * 60 * 1000` — 30 days in milliseconds. -/
def CACHE_DURATION : Int := 30 * 24 * 60 * 60 * 1000

/-- The resolved upstream response: HTTP status, status text, and the
outcome of `response.json()`. -/
structure HttpResponse where
  status : Nat
  statusText : String
  jsonBody : Except String JsVal

/-- Outcome of one outbound `fetch`: a resolved response or a rejected
promise (network-level failure). -/
inductive FetchOutcome where
  | success (r : HttpResponse)
  | netError (msg : String)

/-- `response.ok` holds exactly for statuses in [200, 300). -/
def responseOk (status : Nat) : Bool := 200 ≤ status && status < 300

/-- The rate-limit error message thrown on a 429 status. -/
def rateLimitMsg : String := "Rate limit exceeded. Please try again later."

/-- The generic wrapping applied by the catch block. -/
def upstreamWrap (msg : String) : String := "Failed to fetch data from Sensor Tower: " ++ msg

/-- `country ? cacheKey + "_" + country : cacheKey` — the empty string is
falsy, hence treated as an absent region. -/
def finalCacheKeyOf (cacheKey : String) : Option String → String
  | some c => if c == "" then cacheKey else cacheKey ++ "_" ++ c
  | none => cacheKey

/-- `country ? endpoint + "?country=" + country : endpoint`. -/
def finalEndpointOf (endpoint : String) : Option String → String
  | some c => if c == "" then endpoint else endpoint ++ "?country=" ++ c
  | none => endpoint

/-- The read-time staleness check of lines 43 to 46: a stored entry counts
as a hit only while `now - timestamp < CACHE_DURATION`. -/
def cacheHit (now : Int) (cache : Cache) (k : String) : Option JsVal :=
  match cacheGet cache k with
  | some cached => if now - cached.timestamp < CACHE_DURATION then some cached.data else none
  | none => none

/-- `async function callSensorTowerAPI(endpoint, cacheKey, country)` —
source lines 38 to 82.  `upstream` models `fetch` composed with
`response.json()`; `now` models `Date.now()` (read twice in the source a
few microseconds apart, identified here).  The third component of the
result counts outbound requests issued by this call. -/
def callSensorTowerAPI (upstream : String → FetchOutcome) (now : Int)
    (endpoint cacheKey : String) (country : Option String) (cache : Cache) :
    Except String JsVal × Cache × Nat :=
  let finalCacheKey := finalCacheKeyOf cacheKey country
  match cacheHit now cache finalCacheKey with
  | some d => (.ok d, cache, 0)
  | none =>
    let finalEndpoint := finalEndpointOf endpoint country
    let attempt : Except String JsVal × Cache :=
      match upstream finalEndpoint with
      | .netError msg => (.error msg, cache)
      | .success r =>
        if r.status == 429 then (.error rateLimitMsg, cache)
        else if ¬ responseOk r.status then
          (.error ("HTTP " ++ toString r.status ++ ": " ++ r.statusText), cache)
        else
          match r.jsonBody with
          | .error msg => (.error msg, cache)
          | .ok d => (.ok d, cacheSet cache finalCacheKey (CacheEntry.mk d now))
    match attempt with
    | (.ok d, c) => (.ok d, c, 1)
    | (.error msg, c) =>
      if strContains msg "Rate limit" then (.error msg, c, 1)
      else (.error (upstreamWrap msg), c, 1)

/-- One entry of the per-identifier results array: the identifier plus
either the extracted data (`success: true`) or the caught error message
(`success: false`). -/
structure ItemEntry where
  identifier : JsVal
  outcome : Except String JsVal

/-- The `success` flag of a result entry. -/
def ItemEntry.success (e : ItemEntry) : Bool :=
  match e.outcome with
  | .ok _ => true
  | .error _ => false

/-- `if (!includeCompetitors && essentialData.competitive_analysis) delete
essentialData.competitive_analysis` — the conjunction short-circuits, and
the property access throws when `essentialData` is `null`. -/
def competitorFilter (essentialData : JsVal) (includeCompetitors : Bool) :
    Except String JsVal :=
  if includeCompetitors then .ok essentialData
  else do
    let ca ← jget essentialData "competitive_analysis"
    if truthy ca then pure (jdelete essentialData "competitive_analysis")
    else pure essentialData

/-- One iteration of the per-identifier loop body with its inner try/catch:
fetch, extract, optionally drop competitors; any thrown error becomes a
`success: false` entry. -/
def processApp (upstream : String → FetchOutcome) (now : Int) (country : Option String)
    (includeCompetitors : Bool) (platform endpoint cacheKey : String) (idJs : JsVal)
    (cache : Cache) : ItemEntry × Cache :=
  match callSensorTowerAPI upstream now endpoint cacheKey country cache with
  | (.error msg, c, _) => (⟨idJs, .error msg⟩, c)
  | (.ok rawData, c, _) =>
    let essential := extractEssentialRevenueData rawData platform idJs
    match competitorFilter essential includeCompetitors with
    | .error msg => (⟨idJs, .error msg⟩, c)
    | .ok d => (⟨idJs, .ok d⟩, c)

/-- The `for ... of` loop over the identifiers: results accumulate in input
order and the shared cache threads through; one failing item never stops
the loop. -/
def batchRun {α : Type} (f : Cache → α → ItemEntry × Cache) :
    Cache → List α → List ItemEntry × Cache
  | c, [] => ([], c)
  | c, x :: xs =>
    let (e, c1) := f c x
    let (rest, c2) := batchRun f c1 xs
    (e :: rest, c2)

/-- The summary object built after the loop. -/
structure BatchSummary where
  total_apps : Nat
  successful : Nat
  failed : Nat
  apps : List ItemEntry

/-- `{ total_apps, successful, failed, apps }` from the loop results. -/
def mkSummary (total : Nat) (results : List ItemEntry) : BatchSummary :=
  ⟨total,
   (results.filter (fun r => r.success)).length,
   (results.filter (fun r => !r.success)).length,
   results⟩

/-- The iOS endpoint template of the handler. -/
def iosEndpoint (appId : Int) : String :=
  "https://app.sensortower.com/api/ios/apps/" ++ toString appId

/-- The iOS cache key base `ios_${appId}`. -/
def iosCacheKey (appId : Int) : String := "ios_" ++ toString appId

/-- The Android endpoint template of the handler. -/
def androidEndpoint (pkg : String) : String :=
  "https://app.sensortower.com/api/android/apps/" ++ pkg

/-- The Android cache key base `android_${packageName}`. -/
def androidCacheKey (pkg : String) : String := "android_" ++ pkg

/-- The `sensor-tower-ios-revenue` handler — source lines 991 to 1030 —
after the input normalization `Array.isArray(appIds) ? appIds : [appIds]`. -/
def iosRevenueHandler (upstream : String → FetchOutcome) (now : Int)
    (appIds : List Int) (includeCompetitors : Bool) (country : Option String)
    (cache : Cache) : BatchSummary × Cache :=
  let (results, c) := batchRun
    (fun c appId => processApp upstream now country includeCompetitors "ios"
      (iosEndpoint appId) (iosCacheKey appId) (.num (appId : ℚ)) c)
    cache appIds
  (mkSummary appIds.length results, c)

/-- The `sensor-tower-android-revenue` handler — source lines 1062 to
1101 — after the analogous input normalization. -/
def androidRevenueHandler (upstream : String → FetchOutcome) (now : Int)
    (packageNames : List String) (includeCompetitors : Bool) (country : Option String)
    (cache : Cache) : BatchSummary × Cache :=
  let (results, c) := batchRun
    (fun c pkg => processApp upstream now country includeCompetitors "android"
      (androidEndpoint pkg) (androidCacheKey pkg) (.str pkg) c)
    cache packageNames
  (mkSummary packageNames.length results, c)

/-! ### Shared lemmas -/

theorem ne_of_data_head {a b : Char} {l1 l2 : List Char} {s t : String}
    (hs : s.data = a :: l1) (ht : t.data = b :: l2) (hab : a ≠ b) : s ≠ t := by
  intro h
  subst h
  have h2 : a :: l1 = b :: l2 := hs.symm.trans ht
  injection h2 with h3 _
  exact hab h3

theorem extractEssentialTry_ok {rawData : JsVal} {platform : String} {identifier rec : JsVal}
    (h : extractEssentialTry rawData platform identifier = .ok rec) :
    ∃ tcVal competitors, tcStep rawData = .ok tcVal ∧ competitorsStep rawData = .ok competitors ∧
      rec = essentialAssemble rawData platform identifier tcVal competitors := by
  unfold extractEssentialTry at h
  cases h1 : tcStep rawData with
  | error e => rw [h1] at h; simp [Bind.bind, Except.bind] at h
  | ok tcVal =>
    rw [h1] at h
    cases h2 : competitorsStep rawData with
    | error e => rw [h2] at h; simp [Bind.bind, Except.bind] at h
    | ok competitors =>
      rw [h2] at h
      simp only [Bind.bind, Except.bind, pure, Except.pure, Except.ok.injEq] at h
      exact ⟨tcVal, competitors, rfl, rfl, h.symm⟩

theorem formatRevenue_small (q : ℚ) (h0 : q ≠ 0) (h1 : q / 100 < 1000) :
    formatRevenue (.num q) = "$" ++ numToLocale (q / 100) := by
  unfold formatRevenue
  have ht : truthy (.num q) = true := by simp [truthy, h0]
  rw [ht, if_neg (by simp)]
  simp only [divQ_eq]
  push_cast
  rw [if_neg (not_le.mpr (lt_trans h1 (by norm_num))), if_neg (not_le.mpr h1)]

theorem formatRevenue_mid (q : ℚ) (h1 : 1000 ≤ q / 100) (h2 : q / 100 < 1000000) :
    formatRevenue (.num q) = "$" ++ toFixed1 (q / 100 / 1000) ++ "K" := by
  have h0 : q ≠ 0 := by
    intro h; rw [h] at h1; norm_num at h1
  unfold formatRevenue
  have ht : truthy (.num q) = true := by simp [truthy, h0]
  rw [ht, if_neg (by simp)]
  simp only [divQ_eq]
  push_cast
  rw [if_neg (not_le.mpr h2), if_pos h1]

theorem formatRevenue_large (q : ℚ) (h1 : 1000000 ≤ q / 100) :
    formatRevenue (.num q) = "$" ++ toFixed1 (q / 100 / 1000000) ++ "M" := by
  have h0 : q ≠ 0 := by
    intro h; rw [h] at h1; norm_num at h1
  unfold formatRevenue
  have ht : truthy (.num q) = true := by simp [truthy, h0]
  rw [ht, if_neg (by simp)]
  simp only [divQ_eq]
  push_cast
  rw [if_pos h1]

theorem revenue_field_preserved {rawData : JsVal} {platform : String} {identifier rec : JsVal}
    {q : ℚ}
    (hv : jgetOpt (jgetOpt rawData "worldwide_last_month_revenue") "value" = .num q)
    (h : extractEssentialTry rawData platform identifier = .ok rec) :
    jgetOpt (jgetOpt rec "revenue_metrics") "last_month_revenue" = .num q ∧
    jgetOpt (jgetOpt rec "revenue_metrics") "revenue_formatted" =
      .str (formatRevenue (.num q)) := by
  obtain ⟨tcVal, competitors, -, -, hrec⟩ := extractEssentialTry_ok h
  subst hrec
  by_cases hq : q = 0
  · subst hq
    simp [essentialAssemble, hv]
  · simp [essentialAssemble, hv, hq]

def rawW : JsVal := .obj [("worldwide_last_month_revenue", .obj [("value", .num 50000)])]

def recW : JsVal :=
  match extractEssentialTry rawW "ios" (JsVal.num 1) with
  | .ok r => r
  | .error _ => .null

/-- C9: category-ranking resolution selects the device bucket by platform —
`iphone` for the iOS input, `phone` for the Android input — before reading
the top_free/top_grossing/top_paid primary-category entries, and whenever
the rankings structure is absent at any level the corresponding ranking
resolves to null (an absent rankings argument resolves to the empty
object) rather than raising an error. -/
theorem C9_category_rankings :
    (∀ bi bp : JsVal, ∀ rest, truthy bi = true →
      extractCategoryRankings (.obj (("iphone", bi) :: ("phone", bp) :: rest)) "ios" =
        rankingTriple bi) ∧
    (∀ bi bp : JsVal, ∀ rest, truthy bp = true →
      extractCategoryRankings (.obj (("iphone", bi) :: ("phone", bp) :: rest)) "android" =
        rankingTriple bp) ∧
    (∀ platform, extractCategoryRankings .undef platform = .obj [] ∧
      extractCategoryRankings .null platform = .obj []) ∧
    (∀ rankings platform, truthy rankings = true →
      jgetOpt rankings "iphone" = .undef → jgetOpt rankings "phone" = .undef →
      jgetOpt rankings "top_free" = .undef → jgetOpt rankings "top_grossing" = .undef →
      jgetOpt rankings "top_paid" = .undef →
      extractCategoryRankings rankings platform =
        .obj [("top_free", .null), ("top_grossing", .null), ("top_paid", .null)]) := by
  refine ⟨?_, ?_, ?_, ?_⟩
  · intro bi bp rest h
    simp [extractCategoryRankings, h]
  · intro bi bp rest h
    simp [extractCategoryRankings, h]
  · intro platform
    exact ⟨rfl, rfl⟩
  · intro rankings platform h h1 h2 h3 h4 h5
    cases hios : platform == "ios" <;>
      simp [extractCategoryRankings, h, hios, h1, h2, rankingTriple, h3, h4, h5]

/-- C3: `formatRevenue` converts the raw cents amount to major units
(dollars = cents / 100) and renders exactly `$0` for a zero or absent
amount, `$` plus the locale-rendered amount below 1000 dollars, a
one-decimal `K` rendering on [1000, 1000000) dollars, and a one-decimal `M`
rendering at or above 1000000 dollars — in particular 0 cents gives `$0`,
50000 gives `$500`, 2500000 gives `$25.0K` and 150000000 gives `$1.5M`,
with the stated behavior on both sides of each threshold — and the
extracted record keeps the raw numeric revenue value unchanged next to its
formatted rendering. -/
theorem C3_format_revenue :
    (formatRevenue (.num 0) = "$0" ∧ formatRevenue .undef = "$0" ∧
      formatRevenue .null = "$0") ∧
    formatRevenue (.num 50000) = "$500" ∧
    formatRevenue (.num 2500000) = "$25.0K" ∧
    formatRevenue (.num 150000000) = "$1.5M" ∧
    formatRevenue (.num 100000) = "$1.0K" ∧
    formatRevenue (.num 99900) = "$999" ∧
    formatRevenue (.num 100000000) = "$1.0M" ∧
    (∀ q : ℚ, q ≠ 0 → q / 100 < 1000 →
      formatRevenue (.num q) = "$" ++ numToLocale (q / 100)) ∧
    (∀ q : ℚ, 1000 ≤ q / 100 → q / 100 < 1000000 →
      formatRevenue (.num q) = "$" ++ toFixed1 (q / 100 / 1000) ++ "K") ∧
    (∀ q : ℚ, 1000000 ≤ q / 100 →
      formatRevenue (.num q) = "$" ++ toFixed1 (q / 100 / 1000000) ++ "M") ∧
    (∀ rawData platform identifier rec (q : ℚ),
      jgetOpt (jgetOpt rawData "worldwide_last_month_revenue") "value" = .num q →
      extractEssentialTry rawData platform identifier = .ok rec →
      jgetOpt (jgetOpt rec "revenue_metrics") "last_month_revenue" = .num q ∧
      jgetOpt (jgetOpt rec "revenue_metrics") "revenue_formatted" =
        .str (formatRevenue (.num q))) := by
  refine ⟨⟨rfl, rfl, rfl⟩, by decide, by decide, by decide, by decide, by decide, by decide,
    formatRevenue_small, formatRevenue_mid, formatRevenue_large, ?_⟩
  intro rawData platform identifier rec q hv h
  exact revenue_field_preserved hv h

/-- Witness for C3: the branch statements evaluated at the documented
sample inputs, and the field-preservation statement at a concrete
payload carrying 50000 cents. -/
theorem C3_format_revenue_witness :
    ((50000 : ℚ) ≠ 0 ∧ (50000 : ℚ) / 100 < 1000 ∧
      formatRevenue (.num 50000) = "$" ++ numToLocale ((50000 : ℚ) / 100)) ∧
    ((1000 : ℚ) ≤ (2500000 : ℚ) / 100 ∧ (2500000 : ℚ) / 100 < 1000000 ∧
      formatRevenue (.num 2500000) = "$" ++ toFixed1 ((2500000 : ℚ) / 100 / 1000) ++ "K") ∧
    ((1000000 : ℚ) ≤ (150000000 : ℚ) / 100 ∧
      formatRevenue (.num 150000000) =
        "$" ++ toFixed1 ((150000000 : ℚ) / 100 / 1000000) ++ "M") ∧
    (jgetOpt (jgetOpt rawW "worldwide_last_month_revenue") "value" = JsVal.num 50000 ∧
      extractEssentialTry rawW "ios" (JsVal.num 1) = .ok recW ∧
      jgetOpt (jgetOpt recW "revenue_metrics") "last_month_revenue" = JsVal.num 50000 ∧
      jgetOpt (jgetOpt recW "revenue_metrics") "revenue_formatted" =
        .str (formatRevenue (JsVal.num 50000))) := by
  obtain ⟨-, -, -, -, -, -, -, hsmall, hmid, hlarge, hpres⟩ := C3_format_revenue
  have hp := hpres rawW "ios" (JsVal.num 1) recW 50000 rfl rfl
  exact ⟨⟨by norm_num, by norm_num, hsmall 50000 (by norm_num) (by norm_num)⟩,
    ⟨by norm_num, by norm_num, hmid 2500000 (by norm_num) (by norm_num)⟩,
    ⟨by norm_num, hlarge 150000000 (by norm_num)⟩,
    rfl, rfl, hp.1, hp.2⟩

/-- C5: extraction is null-safe: a falsy payload yields `null` (not an
error); the empty object yields the fully defaulted record (category
`Unknown`, numeric revenue 0, formatted `$0`, empty competitors, price
`Free`); extraction never raises — the function is total, and any throw
inside the try body is caught and converted into a degraded record carrying
an error description and the raw-data-available flag. -/
theorem C5_extraction_null_safety :
    (∀ rawData platform identifier, truthy rawData = false →
      extractEssentialRevenueData rawData platform identifier = .null) ∧
    extractEssentialRevenueData (.obj []) "ios" (.num 123) =
      .obj [
        ("app_info", .obj [("id", .undef), ("name", .undef), ("publisher", .undef),
          ("platform", .str "ios"), ("category", .str "Unknown"),
          ("content_rating", .undef), ("current_version", .undef)]),
        ("revenue_metrics", .obj [("last_month_revenue", .num 0),
          ("last_month_downloads", .num 0), ("revenue_currency", .str "USD"),
          ("revenue_formatted", .str "$0")]),
        ("market_position", .obj [("overall_rating", .undef), ("rating_count", .undef),
          ("top_countries", .arr []), ("category_rankings", .obj [])]),
        ("monetization", .obj [("price", .str "Free"), ("has_in_app_purchases", .bool false),
          ("top_iap_prices", .arr [])]),
        ("competitive_analysis", .obj [("related_apps_count", .num 0),
          ("top_competitors", .arr [])])] ∧
    (∀ rawData platform identifier msg, truthy rawData = true →
      extractEssentialTry rawData platform identifier = .error msg →
      extractEssentialRevenueData rawData platform identifier =
        .obj [("error", .str ("Failed to extract data: " ++ msg)),
              ("raw_data_available", .bool true)]) ∧
    extractEssentialRevenueData (.obj [("related_apps", .num 5)]) "ios" (.num 1) =
      .obj [("error", .str "Failed to extract data: TypeError: slice is not a function"),
            ("raw_data_available", .bool true)] := by
  refine ⟨?_, rfl, ?_, rfl⟩
  · intro rawData platform identifier h
    simp [extractEssentialRevenueData, h]
  · intro rawData platform identifier msg h1 h2
    simp [extractEssentialRevenueData, h1, h2]

/-- Witness for C5: the null-payload statement applied at `null`, and the
degradation statement applied at a payload whose `related_apps` field is a
number (making `.slice` throw inside the try body). -/
theorem C5_extraction_null_safety_witness :
    (truthy JsVal.null = false ∧
      extractEssentialRevenueData .null "ios" (.num 123) = .null) ∧
    (truthy (JsVal.obj [("related_apps", JsVal.num 5)]) = true ∧
      extractEssentialTry (.obj [("related_apps", .num 5)]) "ios" (.num 1) =
        .error "TypeError: slice is not a function" ∧
      extractEssentialRevenueData (.obj [("related_apps", .num 5)]) "ios" (.num 1) =
        .obj [("error", .str "Failed to extract data: TypeError: slice is not a function"),
              ("raw_data_available", .bool true)]) := by
  obtain ⟨hnull, -, hdeg, -⟩ := C5_extraction_null_safety
  exact ⟨⟨rfl, hnull .null "ios" (.num 123) rfl⟩,
    ⟨rfl, rfl, hdeg (.obj [("related_apps", .num 5)]) "ios" (.num 1)
      "TypeError: slice is not a function" rfl rfl⟩⟩

/-- Witness for C9: the bucket-selection statements applied at a rankings
object with distinct truthy buckets, and the inner-absence statement at a
truthy rankings object with none of the expected keys. -/
theorem C9_category_rankings_witness :
    (truthy (JsVal.num 1) = true ∧
      extractCategoryRankings (.obj [("iphone", .num 1), ("phone", .num 2)]) "ios" =
        rankingTriple (.num 1)) ∧
    (truthy (JsVal.num 2) = true ∧
      extractCategoryRankings (.obj [("iphone", .num 1), ("phone", .num 2)]) "android" =
        rankingTriple (.num 2)) ∧
    (truthy (JsVal.obj [("x", .num 1)]) = true ∧
      extractCategoryRankings (.obj [("x", .num 1)]) "ios" =
        .obj [("top_free", .null), ("top_grossing", .null), ("top_paid", .null)]) := by
  obtain ⟨hios, hand, -, habs⟩ := C9_category_rankings
  exact ⟨⟨by decide, hios (.num 1) (.num 2) [] (by decide)⟩,
    ⟨by decide, hand (.num 1) (.num 2) [] (by decide)⟩,
    ⟨rfl, habs (.obj [("x", .num 1)]) "ios" rfl rfl rfl rfl rfl rfl⟩⟩

def nonNullish : JsVal → Bool
  | .undef => false
  | .null => false
  | _ => true

def isPrimitiveJs : JsVal → Bool
  | .arr _ => false
  | .obj _ => false
  | _ => true

theorem jsSameValueZero_iff {a b : JsVal} (ha : isPrimitiveJs a = true) :
    jsSameValueZero a b = true ↔ a = b := by
  cases a <;> cases b <;> simp_all [jsSameValueZero, isPrimitiveJs]

theorem dedupFirst_sublist (l : List JsVal) : (dedupFirst l).Sublist l := by
  induction l using dedupFirst.induct with
  | case1 => simp [dedupFirst]
  | case2 a t ih =>
    rw [dedupFirst]
    exact List.Sublist.cons₂ a (ih.trans (List.filter_sublist t))

theorem dedupFirst_nodup (l : List JsVal) (hp : ∀ a ∈ l, isPrimitiveJs a = true) :
    (dedupFirst l).Nodup := by
  induction l using dedupFirst.induct with
  | case1 => simp [dedupFirst]
  | case2 a t ih =>
    rw [dedupFirst]
    refine List.nodup_cons.mpr ⟨?_, ih ?_⟩
    · intro hmem
      have hsub := (dedupFirst_sublist _).subset hmem
      have hmf := List.mem_filter.mp hsub
      have hsvz : jsSameValueZero a a = true :=
        (jsSameValueZero_iff (hp a (List.mem_cons_self a t))).mpr rfl
      simp [hsvz] at hmf
    · intro b hb
      exact hp b (List.mem_cons_of_mem a (List.mem_filter.mp hb).1)

theorem dedupFirst_mem (l : List JsVal) (hp : ∀ a ∈ l, isPrimitiveJs a = true) (x : JsVal) :
    x ∈ dedupFirst l ↔ x ∈ l := by
  induction l using dedupFirst.induct with
  | case1 => simp [dedupFirst]
  | case2 a t ih =>
    have hpf : ∀ b ∈ t.filter (fun x => !jsSameValueZero x a), isPrimitiveJs b = true :=
      fun b hb => hp b (List.mem_cons_of_mem a (List.mem_filter.mp hb).1)
    rw [dedupFirst]
    constructor
    · intro h
      rcases List.mem_cons.mp h with h | h
      · exact h ▸ List.mem_cons_self a t
      · exact List.mem_cons_of_mem a (List.mem_filter.mp ((ih hpf).mp h)).1
    · intro h
      rcases List.mem_cons.mp h with h | h
      · exact h ▸ List.mem_cons_self _ _
      · by_cases hsz : jsSameValueZero x a = true
        · have hx : x = a := (jsSameValueZero_iff (hp x (List.mem_cons_of_mem a h))).mp hsz
          simp [hx]
        · refine List.mem_cons_of_mem a ((ih hpf).mpr ?_)
          exact List.mem_filter.mpr ⟨h, by simp [hsz]⟩

theorem jsMapM_price (l : List JsVal) :
    jsMapM (fun iap => jget iap "price") (l.map (fun p => JsVal.obj [("price", p)])) = .ok l := by
  induction l with
  | nil => rfl
  | cons a t ih => simp [ih]

theorem competitorOf_ok {a : JsVal} (h : nonNullish a = true) :
    ∃ c, competitorOf a = .ok c := by
  cases a <;> simp [nonNullish] at h <;> exact ⟨_, rfl⟩

theorem jsMapM_competitorOf_length (l : List JsVal) (h : ∀ a ∈ l, nonNullish a = true) :
    ∃ m, jsMapM competitorOf l = .ok m ∧ m.length = l.length := by
  induction l with
  | nil => exact ⟨[], rfl, rfl⟩
  | cons a t ih =>
    obtain ⟨c, hc⟩ := competitorOf_ok (h a (List.mem_cons_self a t))
    obtain ⟨m, hm, hlen⟩ := ih (fun b hb => h b (List.mem_cons_of_mem a hb))
    refine ⟨c :: m, ?_, by simp [hlen]⟩
    simp [hc, hm]

/-- C8: competitor extraction reads at most the first 3 related-apps
entries (so a 10-entry list yields exactly 3, and absence yields the empty
list, not an error), and IAP price extraction reads up to the first 3 price
entries of the fixed US bucket — independent of everything but that
bucket, and the function takes no region argument at all — de-duplicating
them while preserving first-seen encounter order. -/
theorem C8_competitor_iap_bounding :
    (∀ ps : List JsVal,
      extractTopIAPPrices (.obj [("US", .arr (ps.map (fun p => .obj [("price", p)])))]) =
        .arr (dedupFirst (ps.take 3))) ∧
    (∀ l : List JsVal, (∀ a ∈ l, isPrimitiveJs a = true) →
      (dedupFirst l).Sublist l ∧ (dedupFirst l).Nodup ∧ (∀ x, x ∈ dedupFirst l ↔ x ∈ l)) ∧
    (∀ v w : JsVal, truthy v = true → truthy w = true →
      jgetOpt v "US" = jgetOpt w "US" → extractTopIAPPrices v = extractTopIAPPrices w) ∧
    (∀ rawData : JsVal, ∀ l : List JsVal,
      jgetOpt rawData "related_apps" = .arr l → (∀ a ∈ l, nonNullish a = true) →
      ∃ m, competitorsStep rawData = .ok (.arr m) ∧ m.length = min 3 l.length) ∧
    (∀ rawData : JsVal, jgetOpt rawData "related_apps" = .undef →
      competitorsStep rawData = .ok .undef ∧ jsOr .undef (.arr []) = .arr []) := by
  refine ⟨?_, ?_, ?_, ?_, ?_⟩
  · intro ps
    simp [extractTopIAPPrices, extractTopIAPPricesTry, ← List.map_take, jsMapM_price]
  · intro l hp
    exact ⟨dedupFirst_sublist l, dedupFirst_nodup l hp, dedupFirst_mem l hp⟩
  · intro v w hv hw h
    simp only [extractTopIAPPrices, extractTopIAPPricesTry, hv, hw, h]
  · intro rawData l hra hnn
    obtain ⟨m, hm, hlen⟩ :=
      jsMapM_competitorOf_length (l.take 3) (fun a ha => hnn a (List.take_subset 3 l ha))
    refine ⟨m, ?_, ?_⟩
    · simp [competitorsStep, hra, hm]
    · rw [hlen, List.length_take]
  · intro rawData h
    exact ⟨by simp [competitorsStep, h], rfl⟩

def iapW : JsVal :=
  .obj [("US",
    .arr (([JsVal.num 1, .num 1, .num 2, .num 9]).map (fun p => .obj [("price", p)])))]

def relatedW : JsVal := .obj [("related_apps", .arr (List.replicate 10 (.obj [])))]

/-- Witness for C8: the IAP statement at a four-entry duplicate-laden
price list, the dedup properties at the corresponding primitive list, and
the competitor bounding at a ten-entry related-apps list. -/
theorem C8_competitor_iap_bounding_witness :
    extractTopIAPPrices iapW = .arr (dedupFirst [JsVal.num 1, .num 1, .num 2]) ∧
    dedupFirst [JsVal.num 1, .num 1, .num 2] = [JsVal.num 1, .num 2] ∧
    (∀ a ∈ ([JsVal.num 1, .num 1, .num 2] : List JsVal), isPrimitiveJs a = true) ∧
    (dedupFirst [JsVal.num 1, .num 1, .num 2]).Nodup ∧
    (∃ m, competitorsStep relatedW = .ok (.arr m) ∧ m.length = min 3 10) := by
  obtain ⟨hiap, hprops, -, hcomp, -⟩ := C8_competitor_iap_bounding
  have hp : ∀ a ∈ ([JsVal.num 1, .num 1, .num 2] : List JsVal), isPrimitiveJs a = true := by
    intro a ha
    rcases List.mem_cons.mp ha with h | ha <;>
      [skip; rcases List.mem_cons.mp ha with h | ha] <;>
      first
        | (subst h; rfl)
        | (rcases List.mem_cons.mp ha with h | ha
           · subst h; rfl
           · simp at ha)
  refine ⟨?_, ?_, hp, (hprops _ hp).2.1, ?_⟩
  · have h := hiap [JsVal.num 1, .num 1, .num 2, .num 9]
    simpa [iapW] using h
  · norm_num [dedupFirst, jsSameValueZero]
  · have h := hcomp relatedW (List.replicate 10 (.obj [])) (by simp [relatedW]) ?_
    · simpa using h
    · intro a ha
      rw [List.eq_of_mem_replicate ha]
      rfl

theorem cacheGet_cacheSet_same (c : Cache) (k : String) (e : CacheEntry) :
    cacheGet (cacheSet c k e) k = some e := by
  induction c with
  | nil => simp [cacheSet, cacheGet]
  | cons kv rest ih =>
    obtain ⟨k0, e0⟩ := kv
    cases h : k0 == k
    · simp [cacheSet, cacheGet, h, ih]
    · simp [cacheSet, cacheGet, h]

theorem cacheGet_cacheSet_ne (c : Cache) (k k0 : String) (e : CacheEntry) (h : k0 ≠ k) :
    cacheGet (cacheSet c k e) k0 = cacheGet c k0 := by
  have hkk : (k == k0) = false := by
    simp [Ne.symm h]
  induction c with
  | nil => simp [cacheSet, cacheGet, hkk]
  | cons kv rest ih =>
    obtain ⟨k1, e1⟩ := kv
    cases h1 : k1 == k
    · simp [cacheSet, cacheGet, h1, ih]
    · have hk1 : k1 = k := by simpa using h1
      subst hk1
      simp [cacheSet, cacheGet, h1, hkk]

theorem callSensorTowerAPI_fetch_cases (upstream : String → FetchOutcome) (now : Int)
    (endpoint cacheKey : String) (country : Option String) (cache : Cache)
    (hmiss : cacheHit now cache (finalCacheKeyOf cacheKey country) = none) :
    (callSensorTowerAPI upstream now endpoint cacheKey country cache).2.1 = cache ∨
    ∃ d, (callSensorTowerAPI upstream now endpoint cacheKey country cache).1 = .ok d ∧
      (callSensorTowerAPI upstream now endpoint cacheKey country cache).2.1 =
        cacheSet cache (finalCacheKeyOf cacheKey country) (CacheEntry.mk d now) := by
  cases hu : upstream (finalEndpointOf endpoint country) with
  | netError msg =>
    left
    cases hsc : strContains msg "Rate limit" <;>
      simp [callSensorTowerAPI, hmiss, hu, hsc]
  | success r =>
    cases h429 : r.status == 429 with
    | true =>
      left
      have hsc : strContains rateLimitMsg "Rate limit" = true := by decide
      simp [callSensorTowerAPI, hmiss, hu, h429, hsc]
    | false =>
      cases hok : responseOk r.status with
      | false =>
        left
        cases hsc : strContains ("HTTP " ++ toString r.status ++ ": " ++ r.statusText)
            "Rate limit" <;>
          simp [callSensorTowerAPI, hmiss, hu, h429, hok, hsc]
      | true =>
        cases hj : r.jsonBody with
        | error msg =>
          left
          cases hsc : strContains msg "Rate limit" <;>
            simp [callSensorTowerAPI, hmiss, hu, h429, hok, hj, hsc]
        | ok d =>
          right
          refine ⟨d, ?_, ?_⟩ <;>
            simp [callSensorTowerAPI, hmiss, hu, h429, hok, hj]

theorem callSensorTowerAPI_hit (upstream : String → FetchOutcome) (now : Int)
    (endpoint cacheKey : String) (country : Option String) (cache : Cache) (d : JsVal)
    (hhit : cacheHit now cache (finalCacheKeyOf cacheKey country) = some d) :
    callSensorTowerAPI upstream now endpoint cacheKey country cache = (.ok d, cache, 0) := by
  simp [callSensorTowerAPI, hhit]

theorem callSensorTowerAPI_success (upstream : String → FetchOutcome) (now : Int)
    (endpoint cacheKey : String) (country : Option String) (cache : Cache)
    (r : HttpResponse) (d : JsVal)
    (hmiss : cacheHit now cache (finalCacheKeyOf cacheKey country) = none)
    (hu : upstream (finalEndpointOf endpoint country) = .success r)
    (hok : responseOk r.status = true) (hj : r.jsonBody = .ok d) :
    callSensorTowerAPI upstream now endpoint cacheKey country cache =
      (.ok d, cacheSet cache (finalCacheKeyOf cacheKey country) (CacheEntry.mk d now), 1) := by
  have hne : r.status ≠ 429 := by
    simp [responseOk] at hok
    omega
  simp [callSensorTowerAPI, hmiss, hu, hok, hj, hne]

theorem callSensorTowerAPI_requests (upstream : String → FetchOutcome) (now : Int)
    (endpoint cacheKey : String) (country : Option String) (cache : Cache)
    (hmiss : cacheHit now cache (finalCacheKeyOf cacheKey country) = none) :
    (callSensorTowerAPI upstream now endpoint cacheKey country cache).2.2 = 1 := by
  cases hu : upstream (finalEndpointOf endpoint country) with
  | netError msg =>
    cases hsc : strContains msg "Rate limit" <;>
      simp [callSensorTowerAPI, hmiss, hu, hsc]
  | success r =>
    cases h429 : r.status == 429 with
    | true =>
      have hsc : strContains rateLimitMsg "Rate limit" = true := by decide
      simp [callSensorTowerAPI, hmiss, hu, h429, hsc]
    | false =>
      cases hok : responseOk r.status with
      | false =>
        cases hsc : strContains ("HTTP " ++ toString r.status ++ ": " ++ r.statusText)
            "Rate limit" <;>
          simp [callSensorTowerAPI, hmiss, hu, h429, hok, hsc]
      | true =>
        cases hj : r.jsonBody with
        | error msg =>
          cases hsc : strContains msg "Rate limit" <;>
            simp [callSensorTowerAPI, hmiss, hu, h429, hok, hj, hsc]
        | ok d => simp [callSensorTowerAPI, hmiss, hu, h429, hok, hj]

/-- C1: for every cache key, a fetch at a time `t` with
`t - storedAt < TTL` (TTL = 30 days in milliseconds) returns the stored
payload, leaves the cache unchanged and issues no outbound request; a fetch
at `t ≥ storedAt + TTL` ignores the stale entry and issues exactly one
outbound request, and on upstream success it overwrites the entry under
that key with the new payload and the current timestamp. -/
theorem C1_cache_ttl (upstream : String → FetchOutcome) (now : Int)
    (endpoint cacheKey : String) (country : Option String) (cache : Cache) (e : CacheEntry)
    (hget : cacheGet cache (finalCacheKeyOf cacheKey country) = some e) :
    (now - e.timestamp < CACHE_DURATION →
      callSensorTowerAPI upstream now endpoint cacheKey country cache =
        (.ok e.data, cache, 0)) ∧
    (CACHE_DURATION ≤ now - e.timestamp →
      (callSensorTowerAPI upstream now endpoint cacheKey country cache).2.2 = 1 ∧
      ∀ r d, upstream (finalEndpointOf endpoint country) = .success r →
        responseOk r.status = true → r.jsonBody = .ok d →
        callSensorTowerAPI upstream now endpoint cacheKey country cache =
          (.ok d, cacheSet cache (finalCacheKeyOf cacheKey country) (CacheEntry.mk d now), 1)) := by
  constructor
  · intro h
    exact callSensorTowerAPI_hit upstream now endpoint cacheKey country cache e.data
      (by simp [cacheHit, hget, h])
  · intro h
    have hmiss : cacheHit now cache (finalCacheKeyOf cacheKey country) = none := by
      simp [cacheHit, hget, not_lt.mpr h]
    exact ⟨callSensorTowerAPI_requests upstream now endpoint cacheKey country cache hmiss,
      fun r d hu hok hj =>
        callSensorTowerAPI_success upstream now endpoint cacheKey country cache r d
          hmiss hu hok hj⟩

def upW : String → FetchOutcome := fun _ => .success (HttpResponse.mk 200 "OK" (.ok (.num 2)))

def cacheW : Cache := [("k_US", CacheEntry.mk (.num 1) 0)]

/-- Witness for C1: a one-entry cache hit below the TTL, and the same entry
gone stale exactly at the TTL with a successful refetch overwriting it. -/
theorem C1_cache_ttl_witness :
    cacheGet cacheW (finalCacheKeyOf "k" (some "US")) = some (CacheEntry.mk (.num 1) 0) ∧
    ((5 : Int) - 0 < CACHE_DURATION ∧
      callSensorTowerAPI upW 5 "e" "k" (some "US") cacheW = (.ok (.num 1), cacheW, 0)) ∧
    (CACHE_DURATION ≤ CACHE_DURATION - 0 ∧
      callSensorTowerAPI upW CACHE_DURATION "e" "k" (some "US") cacheW =
        (.ok (.num 2), cacheSet cacheW "k_US" (CacheEntry.mk (.num 2) CACHE_DURATION), 1)) := by
  have h1 := C1_cache_ttl upW 5 "e" "k" (some "US") cacheW (CacheEntry.mk (.num 1) 0) rfl
  have h2 := C1_cache_ttl upW CACHE_DURATION "e" "k" (some "US") cacheW
    (CacheEntry.mk (.num 1) 0) rfl
  refine ⟨rfl, ⟨by decide, h1.1 (by decide)⟩, ⟨by decide, ?_⟩⟩
  exact (h2.2 (by decide)).2 (HttpResponse.mk 200 "OK" (.ok (.num 2))) (.num 2) rfl rfl rfl

/-- C10: every call to `callSensorTowerAPI` modifies at most the cache
entry under its own computed final key — entries under all other keys read
the same before and after — and when the call fails (rate limit,
non-success status, or transport/parse failure) the cache is entirely
unchanged. -/
theorem C10_cache_frame (upstream : String → FetchOutcome) (now : Int)
    (endpoint cacheKey : String) (country : Option String) (cache : Cache) :
    (∀ k, k ≠ finalCacheKeyOf cacheKey country →
      cacheGet (callSensorTowerAPI upstream now endpoint cacheKey country cache).2.1 k =
        cacheGet cache k) ∧
    (∀ msg, (callSensorTowerAPI upstream now endpoint cacheKey country cache).1 = .error msg →
      (callSensorTowerAPI upstream now endpoint cacheKey country cache).2.1 = cache) := by
  cases hhit : cacheHit now cache (finalCacheKeyOf cacheKey country) with
  | some d =>
    have heq := callSensorTowerAPI_hit upstream now endpoint cacheKey country cache d hhit
    rw [heq]
    exact ⟨fun k hk => rfl, fun msg hmsg => rfl⟩
  | none =>
    rcases callSensorTowerAPI_fetch_cases upstream now endpoint cacheKey country cache hhit with
      hc | ⟨d, hres, hc⟩
    · rw [hc]
      exact ⟨fun k hk => rfl, fun msg hmsg => rfl⟩
    · constructor
      · intro k hk
        rw [hc]
        exact cacheGet_cacheSet_ne cache (finalCacheKeyOf cacheKey country) k
          (CacheEntry.mk d now) hk
      · intro msg hmsg
        rw [hres] at hmsg
        exact absurd hmsg (by simp)

def upFail : String → FetchOutcome := fun _ => .netError "boom"

def cacheW2 : Cache := [("other", CacheEntry.mk (.num 7) 0)]

/-- Witness for C10: a failing call over a cache holding an unrelated key
leaves that key and the whole map unchanged. -/
theorem C10_cache_frame_witness :
    ("other" ≠ finalCacheKeyOf "k" none ∧
      cacheGet (callSensorTowerAPI upFail 0 "e" "k" none cacheW2).2.1 "other" =
        cacheGet cacheW2 "other") ∧
    ((callSensorTowerAPI upFail 0 "e" "k" none cacheW2).1 = .error (upstreamWrap "boom") ∧
      (callSensorTowerAPI upFail 0 "e" "k" none cacheW2).2.1 = cacheW2) := by
  have h := C10_cache_frame upFail 0 "e" "k" none cacheW2
  exact ⟨⟨by decide, h.1 "other" (by decide)⟩, ⟨rfl, h.2 (upstreamWrap "boom") rfl⟩⟩

/-- C4: an upstream 429 makes `callSensorTowerAPI` fail with the fixed
rate-limit message, propagated to the caller unmodified (not wrapped by the
generic path), and that message differs from the message produced by any
other failing status, wrapped or not. -/
theorem C4_rate_limit_distinct (upstream : String → FetchOutcome) (now : Int)
    (endpoint cacheKey : String) (country : Option String) (cache : Cache) (r : HttpResponse)
    (hmiss : cacheHit now cache (finalCacheKeyOf cacheKey country) = none)
    (hup : upstream (finalEndpointOf endpoint country) = .success r) :
    (r.status = 429 →
      callSensorTowerAPI upstream now endpoint cacheKey country cache =
        (.error rateLimitMsg, cache, 1)) ∧
    (r.status ≠ 429 → responseOk r.status = false →
      ∀ msg, (callSensorTowerAPI upstream now endpoint cacheKey country cache).1 = .error msg →
        msg ≠ rateLimitMsg) := by
  constructor
  · intro h
    have hsc : strContains rateLimitMsg "Rate limit" = true := by decide
    simp [callSensorTowerAPI, hmiss, hup, h, hsc]
  · intro hne hok msg hmsg
    have h429 : (r.status == 429) = false := by simp [hne]
    cases hsc : strContains ("HTTP " ++ toString r.status ++ ": " ++ r.statusText)
        "Rate limit" with
    | false =>
      simp [callSensorTowerAPI, hmiss, hup, h429, hok, hsc] at hmsg
      rw [← hmsg]
      exact ne_of_data_head rfl rfl (by decide)
    | true =>
      simp [callSensorTowerAPI, hmiss, hup, h429, hok, hsc] at hmsg
      rw [← hmsg]
      exact ne_of_data_head rfl rfl (by decide)

def up429 : String → FetchOutcome :=
  fun _ => .success (HttpResponse.mk 429 "Too Many Requests" (.error "no body"))

def up500 : String → FetchOutcome :=
  fun _ => .success (HttpResponse.mk 500 "Internal Server Error" (.error "no body"))

/-- Witness for C4: a simulated 429 against an empty cache yields exactly
the rate-limit error, and a simulated 500 yields a wrapped message distinct
from it. -/
theorem C4_rate_limit_distinct_witness :
    (cacheHit 0 [] (finalCacheKeyOf "k" none) = none ∧
      callSensorTowerAPI up429 0 "e" "k" none [] = (.error rateLimitMsg, [], 1)) ∧
    ((500 : Nat) ≠ 429 ∧ responseOk 500 = false ∧
      (callSensorTowerAPI up500 0 "e" "k" none []).1 =
        .error (upstreamWrap "HTTP 500: Internal Server Error") ∧
      upstreamWrap "HTTP 500: Internal Server Error" ≠ rateLimitMsg) := by
  have h429 := C4_rate_limit_distinct up429 0 "e" "k" none []
    (HttpResponse.mk 429 "Too Many Requests" (.error "no body")) rfl rfl
  have h500 := C4_rate_limit_distinct up500 0 "e" "k" none []
    (HttpResponse.mk 500 "Internal Server Error" (.error "no body")) rfl rfl
  exact ⟨⟨rfl, h429.1 rfl⟩,
    ⟨by decide, by decide, rfl,
      h500.2 (by decide) (by decide) (upstreamWrap "HTTP 500: Internal Server Error") rfl⟩⟩

/-- C7 as stated is false: a transport-level failure whose message happens
to contain the substring "Rate limit" is rethrown unmodified by the catch
block — the rethrow guard matches on that substring — instead of being
wrapped into the generic `Failed to fetch data from Sensor Tower: ...`
form the claim requires for every transport failure. -/
theorem C7_counterexample :
    (callSensorTowerAPI (fun _ => .netError "getaddrinfo Rate limit at proxy")
        0 "e" "k" none []).1 = .error "getaddrinfo Rate limit at proxy" ∧
    "getaddrinfo Rate limit at proxy" ≠ upstreamWrap "getaddrinfo Rate limit at proxy" := by
  exact ⟨rfl, by decide⟩

/-- C7 amended: every non-success non-429 status yields an error carrying
the status code and status text, and every transport-level failure (network
error or unparseable body) is wrapped into the
`Failed to fetch data from Sensor Tower: ...` form — provided the failure
message does not contain the substring "Rate limit"; a message containing
that substring takes the rate-limit rethrow path and propagates
unmodified. -/
theorem C7_upstream_error_wrapping (upstream : String → FetchOutcome) (now : Int)
    (endpoint cacheKey : String) (country : Option String) (cache : Cache)
    (hmiss : cacheHit now cache (finalCacheKeyOf cacheKey country) = none) :
    (∀ r, upstream (finalEndpointOf endpoint country) = .success r →
      r.status ≠ 429 → responseOk r.status = false →
      strContains ("HTTP " ++ toString r.status ++ ": " ++ r.statusText) "Rate limit" = false →
      (callSensorTowerAPI upstream now endpoint cacheKey country cache).1 =
        .error (upstreamWrap ("HTTP " ++ toString r.status ++ ": " ++ r.statusText))) ∧
    (∀ msg, upstream (finalEndpointOf endpoint country) = .netError msg →
      strContains msg "Rate limit" = false →
      (callSensorTowerAPI upstream now endpoint cacheKey country cache).1 =
        .error (upstreamWrap msg)) ∧
    (∀ r msg, upstream (finalEndpointOf endpoint country) = .success r →
      responseOk r.status = true → r.jsonBody = .error msg →
      strContains msg "Rate limit" = false →
      (callSensorTowerAPI upstream now endpoint cacheKey country cache).1 =
        .error (upstreamWrap msg)) ∧
    (∀ msg, upstream (finalEndpointOf endpoint country) = .netError msg →
      strContains msg "Rate limit" = true →
      (callSensorTowerAPI upstream now endpoint cacheKey country cache).1 = .error msg) := by
  refine ⟨?_, ?_, ?_, ?_⟩
  · intro r hu hne hok hsc
    have h429 : (r.status == 429) = false := by simp [hne]
    simp [callSensorTowerAPI, hmiss, hu, h429, hok, hsc]
  · intro msg hu hsc
    simp [callSensorTowerAPI, hmiss, hu, hsc]
  · intro r msg hu hok hj hsc
    have hne : r.status ≠ 429 := by
      simp [responseOk] at hok
      omega
    simp [callSensorTowerAPI, hmiss, hu, hne, hok, hj, hsc]
  · intro msg hu hsc
    simp [callSensorTowerAPI, hmiss, hu, hsc]

def up200bad : String → FetchOutcome :=
  fun _ => .success (HttpResponse.mk 200 "OK" (.error "Unexpected token u in JSON"))

/-- Witness for C7 amended: a 500 status, a network error and a JSON parse
failure, each with a message free of the rate-limit substring, all surface
in the wrapped form. -/
theorem C7_upstream_error_wrapping_witness :
    (cacheHit 0 [] (finalCacheKeyOf "k" none) = none ∧
      strContains "HTTP 500: Internal Server Error" "Rate limit" = false ∧
      (callSensorTowerAPI up500 0 "e" "k" none []).1 =
        .error (upstreamWrap "HTTP 500: Internal Server Error")) ∧
    (strContains "boom" "Rate limit" = false ∧
      (callSensorTowerAPI upFail 0 "e" "k" none []).1 = .error (upstreamWrap "boom")) ∧
    (strContains "Unexpected token u in JSON" "Rate limit" = false ∧
      (callSensorTowerAPI up200bad 0 "e" "k" none []).1 =
        .error (upstreamWrap "Unexpected token u in JSON")) := by
  have h := C7_upstream_error_wrapping up500 0 "e" "k" none [] rfl
  have h2 := C7_upstream_error_wrapping upFail 0 "e" "k" none [] rfl
  have h3 := C7_upstream_error_wrapping up200bad 0 "e" "k" none [] rfl
  exact ⟨⟨rfl, by decide,
      h.1 (HttpResponse.mk 500 "Internal Server Error" (.error "no body")) rfl
        (by decide) (by decide) (by decide)⟩,
    ⟨by decide, h2.2.1 "boom" rfl (by decide)⟩,
    ⟨by decide,
      h3.2.2.1 (HttpResponse.mk 200 "OK" (.error "Unexpected token u in JSON"))
        "Unexpected token u in JSON" rfl (by decide) rfl (by decide)⟩⟩

/-- C6 as stated is false: the final key is plain string concatenation, so
on Android two distinct (platform, identifier, region) request tuples can
collide whenever an underscore blurs the identifier/region boundary — the
package name `com.a_US` with no region and the package name `com.a` with
region `US` both produce the final key `android_com.a_US`. -/
theorem C6_counterexample :
    ("com.a_US", (none : Option String)) ≠ ("com.a", some "US") ∧
    finalCacheKeyOf (androidCacheKey "com.a_US") none =
      finalCacheKeyOf (androidCacheKey "com.a") (some "US") := by
  exact ⟨by decide, rfl⟩

theorem finalCacheKeyOf_append (base : String) (r : Option String) :
    ∃ suf, finalCacheKeyOf base r = base ++ suf := by
  match r with
  | none => exact ⟨"", by simp [finalCacheKeyOf]⟩
  | some c =>
    cases h : c == ""
    · exact ⟨"_" ++ c, by simp [finalCacheKeyOf, h, String.append_assoc]⟩
    · exact ⟨"", by simp [finalCacheKeyOf, h]⟩

/-- C6 amended: the final cache key is the base concatenated with the
region when a truthy region is present and the base alone otherwise; key
composition is deterministic (it is a function); for a fixed base, two
distinct truthy regions — and a truthy region versus no region — always
produce distinct keys (no cross-region leakage); and iOS and Android keys
never alias.  (Full collision-freedom over all distinct (platform,
identifier, region) tuples fails: see the counterexample.) -/
theorem C6_key_isolation :
    (∀ cacheKey c, c ≠ "" → finalCacheKeyOf cacheKey (some c) = cacheKey ++ "_" ++ c) ∧
    (∀ cacheKey, finalCacheKeyOf cacheKey none = cacheKey) ∧
    (∀ cacheKey c1 c2, c1 ≠ "" → c2 ≠ "" → c1 ≠ c2 →
      finalCacheKeyOf cacheKey (some c1) ≠ finalCacheKeyOf cacheKey (some c2)) ∧
    (∀ cacheKey c, c ≠ "" →
      finalCacheKeyOf cacheKey (some c) ≠ finalCacheKeyOf cacheKey none) ∧
    (∀ appId pkg r1 r2,
      finalCacheKeyOf (iosCacheKey appId) r1 ≠ finalCacheKeyOf (androidCacheKey pkg) r2) := by
  refine ⟨?_, ?_, ?_, ?_, ?_⟩
  · intro cacheKey c h
    simp [finalCacheKeyOf, h]
  · intro cacheKey
    rfl
  · intro cacheKey c1 c2 h1 h2 hne heq
    simp [finalCacheKeyOf, h1, h2] at heq
    have hd := congrArg String.data heq
    simp only [String.data_append, List.append_assoc, List.append_right_inj] at hd
    cases c1 with | mk d1 =>
    cases c2 with | mk d2 =>
    exact hne (congrArg String.mk (by simpa using hd))
  · intro cacheKey c h heq
    simp [finalCacheKeyOf, h] at heq
    have hd := congrArg String.length heq
    simp [String.length_append] at hd
    have hlen : c.length = 0 := by omega
    cases c with | mk d =>
    exact h (congrArg String.mk (by simpa [String.length, List.length_eq_zero] using hlen))
  · intro appId pkg r1 r2 heq
    obtain ⟨s1, e1⟩ := finalCacheKeyOf_append (iosCacheKey appId) r1
    obtain ⟨s2, e2⟩ := finalCacheKeyOf_append (androidCacheKey pkg) r2
    rw [e1, e2] at heq
    exact ne_of_data_head rfl rfl (by decide) heq

/-- Witness for C6 amended: concrete distinct regions, region versus no
region, and an iOS key against an Android key. -/
theorem C6_key_isolation_witness :
    ("US" ≠ "" ∧ finalCacheKeyOf "k" (some "US") = "k" ++ "_" ++ "US") ∧
    ("US" ≠ "DE" ∧ finalCacheKeyOf "k" (some "US") ≠ finalCacheKeyOf "k" (some "DE")) ∧
    finalCacheKeyOf "k" (some "US") ≠ finalCacheKeyOf "k" none ∧
    finalCacheKeyOf (iosCacheKey 1) none ≠ finalCacheKeyOf (androidCacheKey "a") none := by
  obtain ⟨h1, -, h3, h4, h5⟩ := C6_key_isolation
  exact ⟨⟨by decide, h1 "k" "US" (by decide)⟩,
    ⟨by decide, h3 "k" "US" "DE" (by decide) (by decide) (by decide)⟩,
    h4 "k" "US" (by decide),
    h5 1 "a" none none⟩

theorem batchRun_length {α : Type} (f : Cache → α → ItemEntry × Cache) (c : Cache)
    (l : List α) : (batchRun f c l).1.length = l.length := by
  induction l generalizing c with
  | nil => rfl
  | cons x xs ih =>
    rcases hfc : f c x with ⟨e, c1⟩
    simp [batchRun, hfc, ih]

theorem batchRun_map_identifier {α : Type} (f : Cache → α → ItemEntry × Cache)
    (g : α → JsVal) (hf : ∀ c x, ((f c x).1).identifier = g x) (c : Cache) (l : List α) :
    (batchRun f c l).1.map (fun e => e.identifier) = l.map g := by
  induction l generalizing c with
  | nil => rfl
  | cons x xs ih =>
    rcases hfc : f c x with ⟨e, c1⟩
    have hid : e.identifier = g x := by simpa [hfc] using hf c x
    simp [batchRun, hfc, ih, hid]

theorem length_filter_success (l : List ItemEntry) :
    (l.filter (fun r => r.success)).length + (l.filter (fun r => !r.success)).length
      = l.length := by
  induction l with
  | nil => rfl
  | cons a t ih =>
    cases h : a.success <;> simp [List.filter_cons, h, ← ih] <;> omega

/-- The summary shape required of a batch run over the given identifier
sequence: as many result entries as inputs, in input order, with the
success and failure counters counting the entries. -/
def summaryMatches (s : BatchSummary) (ids : List JsVal) : Prop :=
  s.apps.length = ids.length ∧
  s.total_apps = ids.length ∧
  s.apps.map (fun e => e.identifier) = ids ∧
  s.successful = (s.apps.filter (fun r => r.success)).length ∧
  s.failed = (s.apps.filter (fun r => !r.success)).length ∧
  s.successful + s.failed = s.total_apps

theorem mkSummary_matches {α : Type} (f : Cache → α → ItemEntry × Cache) (g : α → JsVal)
    (hf : ∀ c x, ((f c x).1).identifier = g x) (c : Cache) (l : List α) :
    summaryMatches (mkSummary l.length (batchRun f c l).1) (l.map g) := by
  refine ⟨?_, ?_, ?_, rfl, rfl, ?_⟩
  · simp [mkSummary, batchRun_length]
  · simp [mkSummary]
  · simpa [mkSummary] using batchRun_map_identifier f g hf c l
  · simpa [mkSummary, length_filter_success] using batchRun_length f c l

theorem processApp_identifier (upstream : String → FetchOutcome) (now : Int)
    (country : Option String) (includeCompetitors : Bool)
    (platform endpoint cacheKey : String) (idJs : JsVal) (cache : Cache) :
    ((processApp upstream now country includeCompetitors platform endpoint cacheKey idJs
        cache).1).identifier = idJs := by
  rcases hc : callSensorTowerAPI upstream now endpoint cacheKey country cache with ⟨res, c2, n⟩
  cases res with
  | error msg => simp [processApp, hc]
  | ok raw =>
    cases hcf : competitorFilter (extractEssentialRevenueData raw platform idJs)
        includeCompetitors with
    | error m => simp [processApp, hc, hcf]
    | ok d => simp [processApp, hc, hcf]

/-- C2: for every non-empty identifier list, both revenue handlers produce
a results sequence of the same length in input order — one identifier per
entry, each entry recording either a success with data or a failure with
the caught error message — so one identifier's failure never aborts the
rest, and the summary reports the total together with success and failure
counts that add up to it. -/
theorem C2_batch_independence (upstream : String → FetchOutcome) (now : Int)
    (country : Option String) (includeCompetitors : Bool) :
    (∀ (appIds : List Int) (cache : Cache), appIds ≠ [] →
      summaryMatches (iosRevenueHandler upstream now appIds includeCompetitors country cache).1
        (appIds.map (fun i : Int => JsVal.num (i : ℚ)))) ∧
    (∀ (packageNames : List String) (cache : Cache), packageNames ≠ [] →
      summaryMatches
        (androidRevenueHandler upstream now packageNames includeCompetitors country cache).1
        (packageNames.map (fun p => JsVal.str p))) := by
  constructor
  · intro appIds cache hne
    have hred : (iosRevenueHandler upstream now appIds includeCompetitors country cache).1 =
        mkSummary appIds.length
          (batchRun (fun c appId => processApp upstream now country includeCompetitors "ios"
            (iosEndpoint appId) (iosCacheKey appId) (.num (appId : ℚ)) c) cache appIds).1 := by
      rcases hb : batchRun (fun c appId => processApp upstream now country includeCompetitors
          "ios" (iosEndpoint appId) (iosCacheKey appId) (.num (appId : ℚ)) c) cache appIds
        with ⟨results, c2⟩
      simp [iosRevenueHandler, hb]
    rw [hred]
    exact mkSummary_matches _ _
      (fun c x => processApp_identifier upstream now country includeCompetitors "ios"
        (iosEndpoint x) (iosCacheKey x) (.num (x : ℚ)) c) cache appIds
  · intro packageNames cache hne
    have hred :
        (androidRevenueHandler upstream now packageNames includeCompetitors country cache).1 =
        mkSummary packageNames.length
          (batchRun (fun c pkg => processApp upstream now country includeCompetitors "android"
            (androidEndpoint pkg) (androidCacheKey pkg) (.str pkg) c) cache packageNames).1 := by
      rcases hb : batchRun (fun c pkg => processApp upstream now country includeCompetitors
          "android" (androidEndpoint pkg) (androidCacheKey pkg) (.str pkg) c) cache packageNames
        with ⟨results, c2⟩
      simp [androidRevenueHandler, hb]
    rw [hred]
    exact mkSummary_matches _ _
      (fun c x => processApp_identifier upstream now country includeCompetitors "android"
        (androidEndpoint x) (androidCacheKey x) (.str x) c) cache packageNames

def upFail2nd : String → FetchOutcome := fun url =>
  if url == iosEndpoint 2 then
    .success (HttpResponse.mk 500 "Internal Server Error" (.error "no body"))
  else .success (HttpResponse.mk 200 "OK" (.ok (.obj [])))

/-- Witness for C2: three iOS identifiers where the second one's endpoint
returns a 500 — the result sequence has length 3 in input order with
`successful = 2`, `failed = 1`, the failing entry carrying the wrapped
error message — plus a one-element Android batch. -/
theorem C2_batch_independence_witness :
    ([1, 2, 3] ≠ ([] : List Int) ∧
      summaryMatches (iosRevenueHandler upFail2nd 0 [1, 2, 3] true none []).1
        ([1, 2, 3].map (fun i : Int => JsVal.num (i : ℚ)))) ∧
    (iosRevenueHandler upFail2nd 0 [1, 2, 3] true none []).1.apps.map
        (fun e => e.success) = [true, false, true] ∧
    ((iosRevenueHandler upFail2nd 0 [1, 2, 3] true none []).1.apps.getD 1
        (ItemEntry.mk .null (.error ""))).outcome =
      .error (upstreamWrap "HTTP 500: Internal Server Error") ∧
    (iosRevenueHandler upFail2nd 0 [1, 2, 3] true none []).1.successful = 2 ∧
    (iosRevenueHandler upFail2nd 0 [1, 2, 3] true none []).1.failed = 1 ∧
    (iosRevenueHandler upFail2nd 0 [1, 2, 3] true none []).1.total_apps = 3 ∧
    (["x"] ≠ ([] : List String) ∧
      summaryMatches (androidRevenueHandler upFail2nd 0 ["x"] true none []).1
        (["x"].map (fun p => JsVal.str p))) := by
  have h := C2_batch_independence upFail2nd 0 none true
  exact ⟨⟨by decide, h.1 [1, 2, 3] [] (by decide)⟩, rfl, rfl, rfl, rfl, rfl,
    ⟨by decide, h.2 ["x"] [] (by decide)⟩⟩

end AppRevenue
